import Mathlib

/-!
# A verification development for zfree (src/zfree.py)

Shallow embedding of the unit-conversion/autoranging engine and the
field-extraction and formatting pipeline of `zfree.py`.  Python floats are
idealised as exact rationals (all values the program feeds through the
pipeline are integers, where this idealisation is exact, including at the
1000-power tier boundaries of `math.log`).  Python exceptions and
`sys.exit` calls are modelled as `Except.error`; `None` is `Option.none`.
-/

/-- Split a character list at every character satisfying `p` (separators are
consumed; empty pieces are kept, as Python `str.split(sep)` does). -/
def splitWhen (p : Char → Bool) : List Char → List (List Char)
  | [] => [[]]
  | c :: rest =>
    let r := splitWhen p rest
    if p c then [] :: r
    else
      match r with
      | [] => [[c]]
      | h :: t => (c :: h) :: t

/-- Python `str.split(sep)` for a one-character separator. -/
def pySplitOn (sep : Char) (s : String) : List String :=
  (splitWhen (fun c => c = sep) s.data).map String.mk

/-- Python `str.split()` with no arguments: split on whitespace runs,
dropping empty pieces. -/
def pySplitWs (s : String) : List String :=
  ((splitWhen (fun c => c.isWhitespace) s.data).map String.mk).filter
    (fun t => t ≠ "")

/-- The digits of a decimal numeral, most significant first, as a natural
number; `none` when empty or containing a non-digit. -/
def parseNatDigits (l : List Char) : Option ℕ :=
  if l = [] then none
  else
    l.foldl
      (fun acc c =>
        match acc with
        | none => none
        | some n => if c.isDigit then some (n * 10 + (c.toNat - 48)) else none)
      (some 0)

/-- Python `int(s)` on the numerals zfree feeds it (an optional minus sign
followed by decimal digits): `none` models the `ValueError`. -/
def pyInt (s : String) : Option ℤ :=
  match s.data with
  | '-' :: rest => (parseNatDigits rest).map (fun n => -(n : ℤ))
  | l => (parseNatDigits l).map (fun n => (n : ℤ))

/-- Python `str.rstrip()`: drop trailing whitespace. -/
def pyRstrip (s : String) : String :=
  String.mk ((s.data.reverse.dropWhile Char.isWhitespace).reverse)

/-- Whether `re.search(R".*zram.*", row)` finds a match in a single row,
i.e. the row contains the substring `zram`. -/
def hasZram (s : String) : Bool :=
  decide ("zram".data <:+: s.data)

/-- Python list indexing with negative-index wraparound; out-of-range
raises `IndexError`. -/
def pyIndex (xs : List String) (i : ℤ) : Except String String :=
  let j : ℤ := if i < 0 then (xs.length : ℤ) + i else i
  if h : 0 ≤ j ∧ j.toNat < xs.length then .ok (xs.get ⟨j.toNat, h.2⟩)
  else .error "IndexError: list index out of range"

/-- Python f-string right-justification `f"{s:>{width}}"`. -/
def rjust (width : ℕ) (s : String) : String :=
  if s.length < width then String.mk (List.replicate (width - s.length) ' ') ++ s
  else s

/-- Decimal-digit string left-padded with zeros to width `dp`. -/
def padZeros (dp : ℕ) (s : String) : String :=
  if s.length < dp then String.mk (List.replicate (dp - s.length) '0') ++ s
  else s

/-- Python `f"{q:.{dp}f}"` on an exact rational: fixed-point rendering with
`dp` digits after the point, rounding half to even (the rounding of float
formatting).  `|q| * 10 ^ dp` is scaled on the numerator so the whole
computation is integer arithmetic: `n / d` is its floor, `n % d` the
remainder deciding the rounding direction. -/
def fmtFixed (q : ℚ) (dp : ℕ) : String :=
  let sgn := if q.num < 0 then "-" else ""
  let n : ℤ := |q.num| * 10 ^ dp
  let d : ℤ := (q.den : ℤ)
  let fl := n / d
  let r := n % d
  let rounded :=
    if 2 * r < d then fl
    else if d < 2 * r then fl + 1
    else if fl % 2 = 0 then fl else fl + 1
  let m := rounded.toNat
  let ip := m / 10 ^ dp
  let fp := m % 10 ^ dp
  sgn ++ toString ip ++ (if dp = 0 then "" else "." ++ padZeros dp (toString fp))

/-- A `(value, unit)` pair as passed around by zfree; either component may
be Python `None` (`Option.none`). Parsers always produce a present unit. -/
abbrev Quantity := Option ℚ × Option String

/-- An ordered record of named quantities (`OrderedDict` in the source;
order is display order). -/
abbrev NamedRec := List (String × Quantity)

/-- Python `d.get(k)` on a dict built by successive assignment: the last
binding of a key wins. -/
def pyDictGet {α : Type} (d : List (String × α)) (k : String) : Option α :=
  (d.reverse.find? (fun p => p.1 == k)).map (fun p => p.2)

/-- Python `d[k]`: `KeyError` when the key is missing. -/
def pyDictIndex {α : Type} (d : List (String × α)) (k : String) :
    Except String α :=
  match pyDictGet d k with
  | some v => .ok v
  | none => .error "KeyError"

/-- The `prefixes` multiplier table of `convert()` (bytes per unit). -/
def prefixes (u : String) : Option ℚ :=
  if u = "B" then some 1
  else if u = "KB" then some 1000
  else if u = "KiB" then some (2 ^ 10)
  else if u = "MB" then some 1000000
  else if u = "MiB" then some (2 ^ 20)
  else if u = "GB" then some 1000000000
  else if u = "GiB" then some (2 ^ 30)
  else if u = "TB" then some 1000000000000
  else if u = "TiB" then some (2 ^ 40)
  else none

/-- The body of `convert()` without the dispatch on an auto `out_unit`
(which `autorange` never passes back).  Factored out of `convert` to break
the `convert`/`autorange` mutual recursion; for every non-auto `out_unit`
it is the same function as `convert`. -/
def convert_noauto (n : Quantity) (out_unit : String) : Except String Quantity :=
  if n.2 = some "" then .ok (n.1, some "")
  else
    match n.1 with
    | none => .ok (none, none)
    | some v =>
      if n.2 = some "autodecimal" ∨ n.2 = some "autobinary" then
        .error "Internal error: cannot infer input unit (misplaced auto?)"
      else
        match n.2 with
        | none => .error "KeyError"
        | some iu =>
          match prefixes iu, prefixes out_unit with
          | some pin, some pout => .ok (some (v * (pin / pout)), some out_unit)
          | _, _ => .error "KeyError"

/-- Exact value of `math.floor(math.log(q, 1000))` for a positive rational
`q` (the idealisation of the float computation in `autorange`). -/
def ratFloorLog1000 (q : ℚ) : ℤ :=
  if 1 ≤ q then (Nat.log 1000 ⌊q⌋.toNat : ℤ)
  else -(Nat.clog 1000 ⌈q⁻¹⌉.toNat : ℤ)

/-- The magnitude-tier computation of `autorange()`: floor of the base-1000
logarithm of the byte count, with the `ValueError` on a non-positive input
caught and turned into 0, then clamped by `min(length, 4)`. -/
def autorangeTier (shiftvalue : ℚ) : ℤ :=
  min (if shiftvalue ≤ 0 then 0 else ratFloorLog1000 shiftvalue) 4

/-- The `mappingbinary` ladder of `autorange()`. -/
def mappingbinary : List String := ["B", "KiB", "MiB", "GiB", "TiB"]

/-- The `mappingdecimal` ladder of `autorange()` (note: its last entry in the source
is the string `TiB`). -/
def mappingdecimal : List String := ["B", "KB", "MB", "GB", "TiB"]

/-- Model of `autorange(n, want_decimal)`: convert to bytes, pick a tier, convert to
the tier's unit.  The inner `convert(n, "B")` / `convert(n, mapping[length])`
calls always pass a concrete unit, hence `convert_noauto`. -/
def autorange (n : Quantity) (want_decimal : Bool) : Except String Quantity := do
  let shifted ← convert_noauto n "B"
  match shifted.1 with
  | none => .ok (none, none)
  | some shiftvalue =>
    let length := autorangeTier shiftvalue
    let target ← pyIndex (if want_decimal then mappingdecimal else mappingbinary) length
    convert_noauto n target

/-- Model of `convert(n, out_unit)`. -/
def convert (n : Quantity) (out_unit : String) : Except String Quantity :=
  if n.2 = some "" then .ok (n.1, some "")
  else
    match n.1 with
    | none => .ok (none, none)
    | some _ =>
      if n.2 = some "autodecimal" ∨ n.2 = some "autobinary" then
        .error "Internal error: cannot infer input unit (misplaced auto?)"
      else if out_unit = "autodecimal" then autorange n true
      else if out_unit = "autobinary" then autorange n false
      else convert_noauto n out_unit

/-- Left-to-right effectful map over `Except` (the semantics of a Python
`for` loop that may `sys.exit` mid-way: the first error wins). -/
def mapExcept {A B : Type} (f : A -> Except String B) : List A -> Except String (List B)
  | [] => .ok []
  | x :: rest => do
    let y <- f x
    let r <- mapExcept f rest
    pure (y :: r)

/-- Model of `convert_all(d, out_unit)`: `convert` each field, keeping names and
insertion order. -/
def convert_all (d : NamedRec) (out_unit : String) : Except String NamedRec :=
  mapExcept (fun kv => do
    let c <- convert kv.2 out_unit
    pure (kv.1, c)) d

/-- Model of `format_value_unit(vu, dp)`, that is `f"{vu[0]:.{dp}f}{vu[1]}"`.  When the value
is Python `None`, the format spec raises `TypeError` (only `str.__format__`
with an empty spec accepts `None`); a `None` unit would render as the text
`None`. -/
def format_value_unit (vu : Quantity) (dp : ℕ := 1) : Except String String :=
  match vu.1 with
  | none => .error "TypeError: unsupported format string passed to NoneType.__format__"
  | some v =>
    .ok (fmtFixed v dp ++ (match vu.2 with | some u => u | none => "None"))

/-- Model of `format_value_unit_all(d)`: format every field, keeping names and
insertion order. -/
def format_value_unit_all (d : NamedRec) : Except String (List (String × String)) :=
  mapExcept (fun kv => do
    let s <- format_value_unit kv.2
    pure (kv.1, s)) d

/-- Python `zip(*t)`: transpose, truncated to the shortest row of `t`. -/
def pyZip (t : List (List String)) : List (List String) :=
  match (t.map List.length).min? with
  | none => []
  | some k => (List.range k).map (fun i => t.map (fun r => r.getD i ""))

/-- Model of `format_table(t, width)`: each input row becomes a printed column; every
field is right-justified to `width`; the leading newline(s) are stripped. -/
def format_table (t : List (List String)) (width : ℕ) : String :=
  let body := String.join ((pyZip t).map
    (fun row => "\n" ++ String.join (row.map (rjust width))))
  String.mk (body.data.dropWhile (fun c => c = '\n'))

/-- Python truthiness of an optional dict: `None` and the empty dict are
falsy. -/
def truthy {α : Type} (o : Option (List α)) : Bool :=
  match o with
  | none => false
  | some l => !l.isEmpty

/-- Model of `format_meminfo(meminfo, swapinfo, show_disk_swap, width)`. -/
def format_meminfo (meminfo : NamedRec) (swapinfo : Option NamedRec)
    (show_disk_swap : Bool) (width : ℕ) : Except String String := do
  let memfmt ← format_value_unit_all meminfo
  if truthy swapinfo && show_disk_swap then do
    let swfmt ← format_value_unit_all (swapinfo.getD [])
    let table := memfmt.map (fun kv => [kv.1, kv.2, (pyDictGet swfmt kv.1).getD ""])
    pure ("Memory/swap" ++ "\n" ++ format_table table width)
  else
    let table := memfmt.map (fun kv => [kv.1, kv.2])
    pure ("Memory" ++ "\n" ++ format_table table width)

/-- Model of `format_zram(zram_swap, meminfo, width)`: compute the zram total as a
percentage of RAM (a `ZeroDivisionError` when RAM converts to 0 bytes, and
a fatal exit when either total is `None`), then format the four rows. -/
def format_zram (zram_swap : NamedRec) (meminfo : NamedRec) (width : ℕ) :
    Except String String := do
  let mq ← pyDictIndex meminfo "total"
  let zq ← pyDictIndex zram_swap "total"
  let mconv ← convert mq "B"
  let zconv ← convert zq "B"
  match mconv.1, zconv.1 with
  | some memtotal, some ztotal =>
    if memtotal = 0 then .error "ZeroDivisionError: float division by zero"
    else do
      let totalpercent := ztotal / memtotal * 100
      let dq ← pyDictIndex zram_swap "data"
      let rq ← pyDictIndex zram_swap "ratio"
      let ds ← format_value_unit dq
      let ts ← format_value_unit zq
      let rs ← format_value_unit rq 2
      let ps ← format_value_unit (some totalpercent, some "%") 2
      let zd : List (String × String) :=
        [("data", ds), ("total", ts), ("ratio", rs), ("comp%", ps)]
      let table := zd.map (fun kv => [kv.1, kv.2])
      pure ("zram" ++ "\n" ++ format_table table width)
  | _, _ => .error "internal error: total RAM or zram is None?"

/-- One `Key:   value unit` line of meminfo: exactly one colon (tuple
unpacking of `s.split(":")`), then the first whitespace token of the value
parsed as an integer. -/
def parseMeminfoLine (s : String) : Except String (String × ℤ) :=
  match pySplitOn ':' s with
  | [key, value] =>
    match pySplitWs value with
    | [] => .error "IndexError: list index out of range"
    | tok :: _ =>
      match pyInt tok with
      | some n => .ok (key, n)
      | none => .error "ValueError: invalid literal for int"
  | _ => .error "ValueError: not enough values to unpack"

/-- Model of `parse_meminfo(meminfo)`: build the key→KiB dict, then derive
`used = total - available` and `cache = buffers + cached` and emit the
record in order total, used, avail, cache, free.  A missing `MemAvailable`
is the dedicated fatal exit; other missing keys are uncaught `KeyError`s. -/
def parse_meminfo (meminfo : String) : Except String NamedRec := do
  let memdict ← mapExcept parseMeminfoLine (pySplitOn '\n' meminfo)
  let total ← pyDictIndex memdict "MemTotal"
  let available ←
    match pyDictGet memdict "MemAvailable" with
    | some a => pure a
    | none => Except.error "MemAvailable in /proc/meminfo absent. How old is this kernel?"
  let free ← pyDictIndex memdict "MemFree"
  let buffers ← pyDictIndex memdict "Buffers"
  let cached ← pyDictIndex memdict "Cached"
  let bufcache := buffers + cached
  let used := total - available
  pure [("total", (some (total : ℚ), some "KiB")),
        ("used", (some ((used : ℤ) : ℚ), some "KiB")),
        ("avail", (some (available : ℚ), some "KiB")),
        ("cache", (some ((bufcache : ℤ) : ℚ), some "KiB")),
        ("free", (some (free : ℚ), some "KiB"))]

/-- The row-scanning loop of `parse_disk_swap`: remember the single
non-zram row, exiting fatally on a second one. -/
def findSwapRow : List String → Option String → Except String (Option String)
  | [], acc => .ok acc
  | row :: rest, acc =>
    if hasZram row then findSwapRow rest acc
    else
      match acc with
      | some _ => .error "Error: having multiple disk swap devices is unsupported"
      | none => findSwapRow rest (some row)

/-- Model of `parse_disk_swap(swaps)`: drop the header line, find the unique
non-zram row (`None` when there is none), and read total and used from its
third and fourth columns; `free = total - used`.  An `IndexError` is the
caught "/proc/swaps not in expected format" exit; a non-numeric column is
an uncaught `ValueError`. -/
def parse_disk_swap (swaps : String) : Except String (Option NamedRec) := do
  let trimmed := (pySplitOn '\n' swaps).drop 1
  let swaprow ← findSwapRow trimmed none
  match swaprow with
  | none => pure none
  | some row =>
    let cols := pySplitWs row
    match cols.get? 2, cols.get? 3 with
    | some c2, some c3 =>
      match pyInt c2, pyInt c3 with
      | some total, some used =>
        pure (some [("total", (some (total : ℚ), some "KiB")),
                    ("used", (some (used : ℚ), some "KiB")),
                    ("free", (some (((total - used : ℤ)) : ℚ), some "KiB"))])
      | _, _ => .error "ValueError: invalid literal for int"
    | _, _ => .error "Internal error: /proc/swaps not in expected format"

/-- Model of `parse_zram_swap(mmstat)`: fields 0 and 2 of the statistics line are
data and total in bytes; `ratio = data / total`, with the
`ZeroDivisionError` caught and turned into `None`; the ratio is unitless. -/
def parse_zram_swap (mmstat : String) : Except String NamedRec := do
  let m := pySplitWs mmstat
  match m.get? 0, m.get? 2 with
  | some m0, some m2 =>
    match pyInt m0, pyInt m2 with
    | some data, some total =>
      let ratio : Option ℚ := if total = 0 then none else some ((data : ℚ) / (total : ℚ))
      pure [("data", (some (data : ℚ), some "B")),
            ("total", (some (total : ℚ), some "B")),
            ("ratio", (ratio, some ""))]
    | _, _ => .error "ValueError: invalid literal for int"
  | _, _ => .error "IndexError: list index out of range"

/-- The first line of the swaps text containing `zram`, i.e. the match of
`re.search(R".*zram.*", swaps, flags=re.MULTILINE)` (`.` does not cross
newlines, so the earliest match is the whole first such line). -/
def firstZramLine (swaps : String) : Option String :=
  (pySplitOn '\n' swaps).find? hasZram

/-- Model of `gather_zram_mmstat(swaps, fs)`: find a zram swap row, derive the
device's sysfs `mm_stat` path from its short name (`cols[0].split("/")[2]`),
and read it.  `fs` models the filesystem as a path → contents map; a missing
file is the fatal `OSError` exit, a malformed row the fatal `IndexError`
exit. -/
def gather_zram_mmstat (swaps : String) (fs : List (String × String)) :
    Except String (Option String) :=
  match firstZramLine swaps with
  | none => .ok none
  | some line =>
    let cols := pySplitWs line
    match cols.get? 0 with
    | none => .error "Internal error: /proc/swaps not in expected format"
    | some c0 =>
      match (pySplitOn '/' c0).get? 2 with
      | none => .error "Internal error: /proc/swaps not in expected format"
      | some dev =>
        let path := "/sys/class/block/" ++ dev ++ "/mm_stat"
        match pyDictGet fs path with
        | some content => .ok (some (pyRstrip content))
        | none =>
          .error ("Internal error: tried to find zram swap mm_stat, but "
                  ++ path ++ " does not exist")

deriving instance DecidableEq for Except

/-- For an integer byte count at least 1 the idealised floor-log is `Nat.log`. -/
theorem ratFloorLog1000_intCast (b : ℤ) (hb : 1 ≤ b) :
    ratFloorLog1000 (b : ℚ) = (Nat.log 1000 b.toNat : ℤ) := by
  unfold ratFloorLog1000
  rw [if_pos (by exact_mod_cast hb), Int.floor_intCast]

/-- A non-positive byte count gets tier 0 (the caught `ValueError`). -/
theorem autorangeTier_nonpos (b : ℚ) (hb : b ≤ 0) : autorangeTier b = 0 := by
  unfold autorangeTier
  rw [if_pos hb]
  simp

/-- For an integer byte count at least 1 the tier is the clamped `Nat.log`. -/
theorem autorangeTier_intCast (b : ℤ) (hb : 1 ≤ b) :
    autorangeTier (b : ℚ) = min (Nat.log 1000 b.toNat : ℤ) 4 := by
  have hpos : (0 : ℚ) < (b : ℚ) := by exact_mod_cast (by omega : (0 : ℤ) < b)
  unfold autorangeTier
  rw [if_neg (not_le.mpr hpos), ratFloorLog1000_intCast b hb]

/-- C3: the claim is false for the empty dimensionless unit: `convert`
tests the empty unit before the absent value, so `convert((absent, ""), V)`
passes through as `(absent, "")` rather than `(absent, absent)`. -/
theorem c3_absent_empty_unit_counterexample :
    convert (none, some "") "KiB" ≠
      Except.ok ((none : Option ℚ), (none : Option String)) := by
  decide

/-- C3 (amended): for every nonempty source unit `U` and every target `V`,
`convert` maps a quantity with absent value to `(absent, absent)`; a
quantity with the empty dimensionless unit instead passes through with its
empty unit kept. -/
theorem c3_absent_propagation_amended (U V : String) (h : U ≠ "") :
    convert (none, some U) V = Except.ok (none, none) := by
  unfold convert
  simp [h]

theorem c3_absent_propagation_witness :
    ("KiB" : String) ≠ "" ∧ convert (none, some "KiB") "B" = Except.ok (none, none) :=
  ⟨by decide, c3_absent_propagation_amended "KiB" "B" (by decide)⟩

/-- C6: autorange tier selection is monotone on integer byte counts, a
non-positive byte count gets tier 0, and the tier never exceeds the top
index 4 of the 5-tier ladder. -/
theorem c6_tier_monotone_bounded :
    (∀ b1 b2 : ℤ, 0 ≤ b1 → b1 < b2 →
        autorangeTier (b1 : ℚ) ≤ autorangeTier (b2 : ℚ))
      ∧ (∀ b : ℚ, b ≤ 0 → autorangeTier b = 0)
      ∧ (∀ b : ℚ, autorangeTier b ≤ 4) := by
  refine ⟨?_, autorangeTier_nonpos, fun b => min_le_right _ _⟩
  intro b1 b2 h0 h12
  rcases eq_or_lt_of_le h0 with h1 | h1
  · have hz : autorangeTier ((b1 : ℤ) : ℚ) = 0 := by
      rw [← h1]
      exact autorangeTier_nonpos _ (by norm_num)
    rw [hz, autorangeTier_intCast b2 (by omega)]
    exact le_min (Int.ofNat_nonneg _) (by norm_num)
  · rw [autorangeTier_intCast b1 (by omega), autorangeTier_intCast b2 (by omega)]
    exact min_le_min (by exact_mod_cast Nat.log_mono_right (Int.toNat_le_toNat h12.le)) le_rfl

theorem c6_tier_monotone_bounded_witness :
    ((0 : ℤ) ≤ 5 ∧ (5 : ℤ) < 2048
        ∧ autorangeTier ((5 : ℤ) : ℚ) ≤ autorangeTier ((2048 : ℤ) : ℚ))
      ∧ ((-3 : ℚ) ≤ 0 ∧ autorangeTier (-3 : ℚ) = 0)
      ∧ autorangeTier (7 : ℚ) ≤ 4 :=
  ⟨⟨by decide, by decide,
      c6_tier_monotone_bounded.1 5 2048 (by decide) (by decide)⟩,
   ⟨by norm_num, c6_tier_monotone_bounded.2.1 (-3) (by norm_num)⟩,
   c6_tier_monotone_bounded.2.2 7⟩

/-- C7: `parse_zram_swap` parses data and total from fields 0 and 2 of the
statistics line and guards the ratio: absent (with empty, dimensionless
unit) when total is zero instead of failing, `data / total` otherwise. -/
theorem c7_zram_ratio_guard (s m0 m2 : String) (d t : ℤ)
    (h0 : (pySplitWs s).get? 0 = some m0)
    (h2 : (pySplitWs s).get? 2 = some m2)
    (hd : pyInt m0 = some d) (ht : pyInt m2 = some t) :
    parse_zram_swap s = Except.ok
      [("data", (some (d : ℚ), some "B")),
       ("total", (some (t : ℚ), some "B")),
       ("ratio", ((if t = 0 then none else some ((d : ℚ) / (t : ℚ))), some ""))] := by
  simp only [parse_zram_swap, h0, h2, hd, ht]
  rfl

theorem c7_zram_ratio_guard_witness :
    ((pySplitWs "1048576 0 0 0").get? 0 = some "1048576"
      ∧ (pySplitWs "1048576 0 0 0").get? 2 = some "0"
      ∧ pyInt "1048576" = some 1048576 ∧ pyInt "0" = some 0)
    ∧ parse_zram_swap "1048576 0 0 0" = Except.ok
        [("data", (some ((1048576 : ℤ) : ℚ), some "B")),
         ("total", (some ((0 : ℤ) : ℚ), some "B")),
         ("ratio", ((if (0 : ℤ) = 0 then (none : Option ℚ)
                     else some (((1048576 : ℤ) : ℚ) / ((0 : ℤ) : ℚ))), some ""))] :=
  ⟨⟨by decide, by decide, by decide, by decide⟩,
   c7_zram_ratio_guard "1048576 0 0 0" "1048576" "0" 1048576 0
     (by decide) (by decide) (by decide) (by decide)⟩

/-- Reduction of an `Except` bind on a success. -/
@[simp] theorem okBind {E A B : Type} (a : A) (f : A → Except E B) :
    ((Except.ok a : Except E A) >>= f) = f a := rfl

/-- Reduction of an `Except` bind on an error. -/
@[simp] theorem errorBind {E A B : Type} (e : E) (f : A → Except E B) :
    ((Except.error e : Except E A) >>= f) = Except.error e := rfl

/-- The `pure` of the `Except` monad is `Except.ok`. -/
@[simp] theorem pureEqOk {E A : Type} (a : A) :
    (pure a : Except E A) = Except.ok a := rfl

/-- C5: `parse_meminfo` derives `used = total - available` and
`cache = buffers + cached` and emits the fields in exactly the order
total, used, avail, cache, free, each a KiB quantity. -/
theorem c5_parse_meminfo_derivation (s : String) (d : List (String × ℤ))
    (t a f b c : ℤ)
    (hd : mapExcept parseMeminfoLine (pySplitOn '\n' s) = Except.ok d)
    (ht : pyDictGet d "MemTotal" = some t)
    (ha : pyDictGet d "MemAvailable" = some a)
    (hf : pyDictGet d "MemFree" = some f)
    (hb : pyDictGet d "Buffers" = some b)
    (hc : pyDictGet d "Cached" = some c) :
    parse_meminfo s = Except.ok
      [("total", (some (t : ℚ), some "KiB")),
       ("used", (some ((t - a : ℤ) : ℚ), some "KiB")),
       ("avail", (some (a : ℚ), some "KiB")),
       ("cache", (some ((b + c : ℤ) : ℚ), some "KiB")),
       ("free", (some (f : ℚ), some "KiB"))] := by
  simp only [parse_meminfo, pyDictIndex, hd, okBind, errorBind, pureEqOk,
    ht, ha, hf, hb, hc]

theorem c5_parse_meminfo_derivation_witness :
    (mapExcept parseMeminfoLine (pySplitOn '\n'
        "MemTotal: 8000000 kB\nMemAvailable: 4000000 kB\nMemFree: 2000000 kB\nBuffers: 100000 kB\nCached: 900000 kB") =
      Except.ok [("MemTotal", 8000000), ("MemAvailable", 4000000),
                 ("MemFree", 2000000), ("Buffers", 100000), ("Cached", 900000)])
    ∧ parse_meminfo
        "MemTotal: 8000000 kB\nMemAvailable: 4000000 kB\nMemFree: 2000000 kB\nBuffers: 100000 kB\nCached: 900000 kB" =
      Except.ok
        [("total", (some (8000000 : ℚ), some "KiB")),
         ("used", (some (4000000 : ℚ), some "KiB")),
         ("avail", (some (4000000 : ℚ), some "KiB")),
         ("cache", (some (1000000 : ℚ), some "KiB")),
         ("free", (some (2000000 : ℚ), some "KiB"))] :=
  ⟨by decide,
   by exact c5_parse_meminfo_derivation
        "MemTotal: 8000000 kB\nMemAvailable: 4000000 kB\nMemFree: 2000000 kB\nBuffers: 100000 kB\nCached: 900000 kB"
        [("MemTotal", 8000000), ("MemAvailable", 4000000),
         ("MemFree", 2000000), ("Buffers", 100000), ("Cached", 900000)]
        8000000 4000000 2000000 100000 900000
        (by decide) (by decide) (by decide) (by decide) (by decide) (by decide)⟩

/-- A quantity with the empty dimensionless unit passes through `convert`
unchanged (with its empty unit kept), whatever the target unit. -/
theorem convert_empty_unit (n : Quantity) (u : String) (h : n.2 = some "") :
    convert n u = .ok (n.1, some "") := by
  unfold convert
  rw [if_pos h]

/-- C8: whenever `convert_all` returns a record, it has exactly the keys of
the input record in the same order, each value is the `convert` of the
input value, and dimensionless (empty-unit) fields pass through
unchanged. -/
theorem c8_convert_all_structure (d : NamedRec) (u : String) (r : NamedRec)
    (h : convert_all d u = Except.ok r) :
    r.map Prod.fst = d.map Prod.fst
      ∧ r.length = d.length
      ∧ (∀ i (hi : i < d.length) (hr : i < r.length),
          convert (d.get ⟨i, hi⟩).2 u = Except.ok (r.get ⟨i, hr⟩).2
            ∧ ((d.get ⟨i, hi⟩).2.2 = some "" →
                (r.get ⟨i, hr⟩).2 = ((d.get ⟨i, hi⟩).2.1, some ""))) := by
  induction d generalizing r with
  | nil =>
    simp only [convert_all, mapExcept, Except.ok.injEq] at h
    subst h
    exact ⟨rfl, rfl, fun i hi => absurd hi (Nat.not_lt_zero i)⟩
  | cons kv rest ih =>
    simp only [convert_all, mapExcept] at h
    cases hc : convert kv.2 u with
    | error e =>
      rw [hc] at h
      simp only [okBind, errorBind, pureEqOk] at h
      exact Except.noConfusion h
    | ok cq =>
      rw [hc] at h
      cases hrest : mapExcept
          (fun kv => do
            let c ← convert kv.2 u
            pure (kv.1, c)) rest with
      | error e =>
        rw [hrest] at h
        simp only [okBind, errorBind, pureEqOk] at h
        exact Except.noConfusion h
      | ok rs =>
        rw [hrest] at h
        simp only [okBind, errorBind, pureEqOk, Except.ok.injEq] at h
        subst h
        obtain ⟨ih1, ih2, ih3⟩ := ih rs (by simpa only [convert_all] using hrest)
        refine ⟨by simpa using ih1, by simpa using ih2, ?_⟩
        intro i hi hr
        cases i with
        | zero =>
          refine ⟨hc, fun hdim => ?_⟩
          rw [convert_empty_unit kv.2 u hdim] at hc
          exact (Except.ok.inj hc).symm
        | succ j =>
          exact ih3 j (Nat.lt_of_succ_lt_succ hi) (Nat.lt_of_succ_lt_succ hr)

theorem c8_convert_all_structure_witness :
    (convert_all
        [("total", ((none : Option ℚ), some "KiB")), ("ratio", (some 1, some ""))] "B" =
      Except.ok [("total", (none, none)), ("ratio", (some 1, some ""))])
    ∧ ([("total", ((none : Option ℚ), (none : Option String))), ("ratio", (some 1, some ""))].map Prod.fst =
        [("total", ((none : Option ℚ), some "KiB")), ("ratio", (some 1, some ""))].map Prod.fst
      ∧ ([("total", ((none : Option ℚ), (none : Option String))), ("ratio", (some 1, some ""))] : NamedRec).length =
        ([("total", ((none : Option ℚ), some "KiB")), ("ratio", (some 1, some ""))] : NamedRec).length
      ∧ (∀ i (hi : i < ([("total", ((none : Option ℚ), some "KiB")), ("ratio", (some 1, some ""))] : NamedRec).length)
            (hr : i < ([("total", ((none : Option ℚ), (none : Option String))), ("ratio", (some 1, some ""))] : NamedRec).length),
          convert (([("total", ((none : Option ℚ), some "KiB")), ("ratio", (some 1, some ""))] : NamedRec).get ⟨i, hi⟩).2 "B" =
            Except.ok ((([("total", ((none : Option ℚ), (none : Option String))), ("ratio", (some 1, some ""))] : NamedRec).get ⟨i, hr⟩).2)
            ∧ ((([("total", ((none : Option ℚ), some "KiB")), ("ratio", (some 1, some ""))] : NamedRec).get ⟨i, hi⟩).2.2 = some "" →
                (([("total", ((none : Option ℚ), (none : Option String))), ("ratio", (some 1, some ""))] : NamedRec).get ⟨i, hr⟩).2 =
                  ((([("total", ((none : Option ℚ), some "KiB")), ("ratio", (some 1, some ""))] : NamedRec).get ⟨i, hi⟩).2.1, some "")))) :=
  ⟨by decide,
   c8_convert_all_structure
     [("total", ((none : Option ℚ), some "KiB")), ("ratio", (some 1, some ""))] "B"
     [("total", (none, none)), ("ratio", (some 1, some ""))] (by decide)⟩

/-- The swap-row scanning loop, characterised by the accumulator and the
non-zram rows in the remaining input: it succeeds only when at most one
non-zram row exists overall. -/
theorem findSwapRow_spec (rows : List String) (acc : Option String) :
    findSwapRow rows acc =
      match acc, rows.filter (fun r => !hasZram r) with
      | none, [] => .ok none
      | none, [r] => .ok (some r)
      | some a, [] => .ok (some a)
      | _, _ => .error "Error: having multiple disk swap devices is unsupported" := by
  induction rows generalizing acc with
  | nil => cases acc <;> rfl
  | cons row rest ih =>
    by_cases hz : hasZram row
    · simp only [findSwapRow, hz, if_true, List.filter_cons, Bool.not_true,
        Bool.false_eq_true, if_false]
      exact ih acc
    · cases acc with
      | some a =>
        simp only [findSwapRow, hz, Bool.false_eq_true, if_false,
          List.filter_cons, Bool.not_false, if_true]
      | none =>
        simp only [findSwapRow, hz, Bool.false_eq_true, if_false,
          List.filter_cons, Bool.not_false, if_true]
        rw [ih (some row)]
        cases hf : rest.filter (fun r => !hasZram r) <;> rfl

/-- C9: `parse_disk_swap` fails fatally when more than one non-zram row
exists, returns the distinct non-error "no disk swap" result (`none`) when
zero non-zram rows exist, and otherwise emits ordered fields total, used,
free in KiB with `free = total - used` taken from the surviving row's
third and fourth columns. -/
theorem c9_parse_disk_swap_cases (swaps : String) :
    (2 ≤ (((pySplitOn '\n' swaps).drop 1).filter (fun r => !hasZram r)).length →
        parse_disk_swap swaps =
          Except.error "Error: having multiple disk swap devices is unsupported")
      ∧ ((((pySplitOn '\n' swaps).drop 1).filter (fun r => !hasZram r)) = [] →
          parse_disk_swap swaps = Except.ok none)
      ∧ (∀ row c2 c3 t u,
          (((pySplitOn '\n' swaps).drop 1).filter (fun r => !hasZram r)) = [row] →
          (pySplitWs row).get? 2 = some c2 →
          (pySplitWs row).get? 3 = some c3 →
          pyInt c2 = some t → pyInt c3 = some u →
          parse_disk_swap swaps = Except.ok (some
            [("total", (some (t : ℚ), some "KiB")),
             ("used", (some (u : ℚ), some "KiB")),
             ("free", (some ((t - u : ℤ) : ℚ), some "KiB"))])) := by
  refine ⟨?_, ?_, ?_⟩
  · intro h2
    cases hf : ((pySplitOn '\n' swaps).drop 1).filter (fun r => !hasZram r) with
    | nil => rw [hf] at h2; simp at h2
    | cons r1 tl =>
      cases tl with
      | nil => rw [hf] at h2; simp at h2
      | cons r2 tl2 =>
        simp only [parse_disk_swap, findSwapRow_spec, hf, errorBind]
  · intro hf
    simp only [parse_disk_swap, findSwapRow_spec, hf, okBind, pureEqOk]
  · intro row c2 c3 t u hf h2 h3 ht hu
    simp only [parse_disk_swap, findSwapRow_spec, hf, okBind, h2, h3, ht, hu,
      pureEqOk]

theorem c9_parse_disk_swap_cases_witness :
    ((2 ≤ (((pySplitOn '\n' "Filename Type Size Used Priority\n/dev/sda2 partition 1000 200 -2\n/dev/sdb1 partition 500 0 -3").drop 1).filter (fun r => !hasZram r)).length)
      ∧ parse_disk_swap "Filename Type Size Used Priority\n/dev/sda2 partition 1000 200 -2\n/dev/sdb1 partition 500 0 -3" =
          Except.error "Error: having multiple disk swap devices is unsupported")
    ∧ ((((pySplitOn '\n' "Filename Type Size Used Priority\n/dev/zram0 partition 100 10 5").drop 1).filter (fun r => !hasZram r)) = []
      ∧ parse_disk_swap "Filename Type Size Used Priority\n/dev/zram0 partition 100 10 5" = Except.ok none)
    ∧ ((((pySplitOn '\n' "Filename Type Size Used Priority\n/dev/sda2 partition 1000 200 -2").drop 1).filter (fun r => !hasZram r)) = ["/dev/sda2 partition 1000 200 -2"]
      ∧ parse_disk_swap "Filename Type Size Used Priority\n/dev/sda2 partition 1000 200 -2" =
          Except.ok (some
            [("total", (some ((1000 : ℤ) : ℚ), some "KiB")),
             ("used", (some ((200 : ℤ) : ℚ), some "KiB")),
             ("free", (some ((1000 - 200 : ℤ) : ℚ), some "KiB"))])) :=
  ⟨⟨by decide,
    (c9_parse_disk_swap_cases _).1 (by decide)⟩,
   ⟨by decide,
    (c9_parse_disk_swap_cases _).2.1 (by decide)⟩,
   ⟨by decide,
    (c9_parse_disk_swap_cases _).2.2 "/dev/sda2 partition 1000 200 -2" "1000" "200"
      1000 200 (by decide) (by decide) (by decide) (by decide) (by decide)⟩⟩

/-- C10: in the side-by-side Memory/swap block, every memory field with no
same-named field in the disk-swap record keeps its row, with the swap cell
the empty string (right-justified to the column width by the table
renderer); nothing is dropped and no error is raised. -/
theorem c10_missing_swap_field_empty_cell (mem sw : NamedRec) (width : ℕ)
    (mf sf : List (String × String))
    (hm : format_value_unit_all mem = Except.ok mf)
    (hs : format_value_unit_all sw = Except.ok sf)
    (hne : sw ≠ []) :
    format_meminfo mem (some sw) true width =
      Except.ok ("Memory/swap" ++ "\n" ++
        format_table (mf.map (fun kv => [kv.1, kv.2, (pyDictGet sf kv.1).getD ""]))
          width)
      ∧ (mf.map (fun kv => [kv.1, kv.2, (pyDictGet sf kv.1).getD ""])).length
          = mf.length
      ∧ (∀ kv ∈ mf, pyDictGet sf kv.1 = none →
          [kv.1, kv.2, (pyDictGet sf kv.1).getD ""] = [kv.1, kv.2, ""])
      ∧ rjust width "" = String.mk (List.replicate width ' ') := by
  have htruthy : truthy (some sw) = true := by
    cases sw with
    | nil => exact absurd rfl hne
    | cons kv tl => rfl
  refine ⟨?_, List.length_map _ _, ?_, ?_⟩
  · simp only [format_meminfo, hm, okBind, htruthy, Bool.true_and, if_true,
      Option.getD, hs, pureEqOk]
  · intro kv hkv hnone
    rw [hnone]
    rfl
  · unfold rjust
    by_cases h : ("" : String).length < width
    · rw [if_pos h]
      show String.mk (List.replicate (width - 0) ' ' ++ []) = _
      rw [List.append_nil, Nat.sub_zero]
    · rw [if_neg h]
      have : width = 0 := by
        simpa using Nat.le_of_not_lt h
      subst this
      rfl

/-- C4: the claim is false: with two zram rows in the swap table (and both
statistics files present) `gather_zram_mmstat` does not abort; it returns
the first device's statistics. -/
theorem c4_multiple_zram_counterexample :
    2 ≤ ((pySplitOn '\n' "Filename Type Size Used Priority\n/dev/zram0 partition 100 10 5\n/dev/zram1 partition 200 20 4").filter hasZram).length
      ∧ gather_zram_mmstat
          "Filename Type Size Used Priority\n/dev/zram0 partition 100 10 5\n/dev/zram1 partition 200 20 4"
          [("/sys/class/block/zram0/mm_stat", "1048576 0 2097152 0 0 0 0 0 0"),
           ("/sys/class/block/zram1/mm_stat", "1 0 1 0 0 0 0 0 0")] =
        Except.ok (some "1048576 0 2097152 0 0 0 0 0 0") := by
  exact ⟨by decide, by decide⟩

/-- C4 (amended): when the swap table contains more than one zram swap
row, the run is not treated as an error: `gather_zram_mmstat` proceeds
with the first zram row, deriving that device's statistics path and
returning its contents. -/
theorem c4_first_zram_row_used (swaps : String) (fs : List (String × String))
    (line c0 dev content : String)
    (hmulti : 2 ≤ ((pySplitOn '\n' swaps).filter hasZram).length)
    (hfind : (pySplitOn '\n' swaps).find? hasZram = some line)
    (hc0 : (pySplitWs line).get? 0 = some c0)
    (hdev : (pySplitOn '/' c0).get? 2 = some dev)
    (hfs : pyDictGet fs ("/sys/class/block/" ++ dev ++ "/mm_stat") = some content) :
    gather_zram_mmstat swaps fs = Except.ok (some (pyRstrip content)) := by
  simp only [gather_zram_mmstat, firstZramLine, hfind, hc0, hdev, hfs]

theorem c4_first_zram_row_used_witness :
    (2 ≤ ((pySplitOn '\n' "Filename Type Size Used Priority\n/dev/zram2 partition 100 10 5\n/dev/zram3 partition 200 20 4").filter hasZram).length
      ∧ (pySplitOn '\n' "Filename Type Size Used Priority\n/dev/zram2 partition 100 10 5\n/dev/zram3 partition 200 20 4").find? hasZram = some "/dev/zram2 partition 100 10 5"
      ∧ (pySplitWs "/dev/zram2 partition 100 10 5").get? 0 = some "/dev/zram2"
      ∧ (pySplitOn '/' "/dev/zram2").get? 2 = some "zram2"
      ∧ pyDictGet [("/sys/class/block/zram2/mm_stat", "7 0 9 0 0 0 0 0 0")] "/sys/class/block/zram2/mm_stat" = some "7 0 9 0 0 0 0 0 0")
    ∧ gather_zram_mmstat
        "Filename Type Size Used Priority\n/dev/zram2 partition 100 10 5\n/dev/zram3 partition 200 20 4"
        [("/sys/class/block/zram2/mm_stat", "7 0 9 0 0 0 0 0 0")] =
      Except.ok (some (pyRstrip "7 0 9 0 0 0 0 0 0")) :=
  ⟨⟨by decide, by decide, by decide, by decide, by decide⟩,
   c4_first_zram_row_used _ _ "/dev/zram2 partition 100 10 5" "/dev/zram2" "zram2"
     "7 0 9 0 0 0 0 0 0" (by decide) (by decide) (by decide) (by decide) (by decide)⟩

/-- C2: the claim is false as a description of the code, which is the bug:
`format_value_unit` on an absent value raises `TypeError` (the fixed-point
format spec does not accept `None`), and the zram block's rendering of the
absent compression ratio of a zero-total zram device propagates that same
exception instead of rendering a null-like string. -/
theorem c2_absent_format_raises :
    format_value_unit ((none : Option ℚ), some "") 2 =
        Except.error "TypeError: unsupported format string passed to NoneType.__format__"
      ∧ format_zram
          [("data", (some 1048576, some "B")), ("total", (some 0, some "B")),
           ("ratio", ((none : Option ℚ), some ""))]
          [("total", (some 8388608, some "B"))] 11 =
        Except.error "TypeError: unsupported format string passed to NoneType.__format__" := by
  constructor
  · rfl
  · have hm : convert ((some 8388608 : Option ℚ), some "B") "B" =
        Except.ok (some 8388608, some "B") := by
      simp only [convert, convert_noauto, prefixes]
      norm_num
      decide
    have hz : convert ((some 0 : Option ℚ), some "B") "B" =
        Except.ok (some 0, some "B") := by
      simp only [convert, convert_noauto, prefixes]
      norm_num
      decide
    simp only [format_zram, pyDictIndex, pyDictGet]
    norm_num [hm, hz]
    rfl

/-- C1: the claim is false as a description of the code, which is the bug:
the last entry of `mappingdecimal` is the binary unit string `TiB`, so
decimal autoranging of a byte magnitude in the top tier (at least 1000^4
bytes, here 2×10^12) converts into TiB, not TB. -/
theorem c1_decimal_autorange_yields_tib :
    autorange ((some 2000000000000 : Option ℚ), some "B") true =
        Except.ok (some ((2000000000000 : ℚ) * (1 / 2 ^ 40)), some "TiB")
      ∧ (2000000000000 : ℚ) * (1 / 2 ^ 40) = 244140625 / 134217728 := by
  constructor
  · have h1 : convert_noauto ((some 2000000000000 : Option ℚ), some "B") "B" =
        Except.ok (some 2000000000000, some "B") := by
      simp only [convert_noauto, prefixes]
      norm_num
      decide
    have hlog : Nat.log 1000 2000000000000 = 4 :=
      Nat.log_eq_of_pow_le_of_lt_pow (by norm_num) (by norm_num)
    have h2 : autorangeTier (2000000000000 : ℚ) = 4 := by
      have hcast : ((2000000000000 : ℤ) : ℚ) = (2000000000000 : ℚ) := by norm_num
      rw [← hcast, autorangeTier_intCast 2000000000000 (by norm_num)]
      rw [show ((2000000000000 : ℤ).toNat) = 2000000000000 from rfl, hlog]
      decide
    have h3 : pyIndex mappingdecimal 4 = Except.ok "TiB" := by decide
    have h4 : convert_noauto ((some 2000000000000 : Option ℚ), some "B") "TiB" =
        Except.ok (some ((2000000000000 : ℚ) * (1 / 2 ^ 40)), some "TiB") := by
      rfl
    unfold autorange
    rw [h1, okBind]
    show pyIndex mappingdecimal (autorangeTier 2000000000000) >>=
        (fun target => convert_noauto ((some 2000000000000 : Option ℚ), some "B") target) =
      Except.ok (some ((2000000000000 : ℚ) * (1 / 2 ^ 40)), some "TiB")
    rw [h2, h3, okBind]
    exact h4
  · norm_num

theorem c10_missing_swap_field_empty_cell_witness :
    (format_value_unit_all
          [("total", ((some 1 : Option ℚ), some "KiB")),
           ("avail", ((some 2 : Option ℚ), some "KiB"))] =
        Except.ok [("total", "1.0KiB"), ("avail", "2.0KiB")]
      ∧ format_value_unit_all [("total", ((some 3 : Option ℚ), some "KiB"))] =
        Except.ok [("total", "3.0KiB")]
      ∧ ([("total", ((some 3 : Option ℚ), some "KiB"))] : NamedRec) ≠ [])
    ∧ (format_meminfo
          [("total", ((some 1 : Option ℚ), some "KiB")),
           ("avail", ((some 2 : Option ℚ), some "KiB"))]
          (some [("total", ((some 3 : Option ℚ), some "KiB"))]) true 4 =
        Except.ok ("Memory/swap" ++ "\n" ++
          format_table (([("total", "1.0KiB"), ("avail", "2.0KiB")] : List (String × String)).map
            (fun kv => [kv.1, kv.2, (pyDictGet [("total", "3.0KiB")] kv.1).getD ""])) 4)
      ∧ (([("total", "1.0KiB"), ("avail", "2.0KiB")] : List (String × String)).map
            (fun kv => [kv.1, kv.2, (pyDictGet [("total", "3.0KiB")] kv.1).getD ""])).length
          = ([("total", "1.0KiB"), ("avail", "2.0KiB")] : List (String × String)).length
      ∧ (∀ kv ∈ ([("total", "1.0KiB"), ("avail", "2.0KiB")] : List (String × String)),
          pyDictGet [("total", "3.0KiB")] kv.1 = none →
            [kv.1, kv.2, (pyDictGet [("total", "3.0KiB")] kv.1).getD ""] = [kv.1, kv.2, ""])
      ∧ rjust 4 "" = String.mk (List.replicate 4 ' ')) :=
  ⟨⟨by decide, by decide, by decide⟩,
   c10_missing_swap_field_empty_cell
     [("total", ((some 1 : Option ℚ), some "KiB")),
      ("avail", ((some 2 : Option ℚ), some "KiB"))]
     [("total", ((some 3 : Option ℚ), some "KiB"))] 4
     [("total", "1.0KiB"), ("avail", "2.0KiB")] [("total", "3.0KiB")]
     (by decide) (by decide) (by decide)⟩
